import Mathlib

/-!
Shallow embedding of the login-throttling subsystem of
`src/api/components/authentication/authentication-controller.js`.

The controller keeps a module-level object `failedLoginAttempts` mapping an
email to its failed-login count (a missing key reads as 0 via `|| 0`), and a
constant `loginAttemptResetTime = 30 * 60 * 1000` milliseconds.  The `login`
handler:
  1. reads `loginAttempts = failedLoginAttempts[email] || 0`;
  2. if `loginAttempts >= 5`, throws a FORBIDDEN error (caught locally and
     passed to `next`), touching nothing;
  3. otherwise awaits `authenticationServices.checkLoginCredentials(email,
     password)`; if that call throws, the catch block passes the error to
     `next` with no state change;
  4. if the result is falsy, stores `loginAttempts + 1` and throws an
     INVALID_CREDENTIALS error (passed to `next`);
  5. if truthy, stores 0, schedules `setTimeout(() => failedLoginAttempts[email] = 0,
     loginAttemptResetTime)`, and answers 200 with the service result.

We model the mutable map as a total function `String → Nat` (default 0), the
set of outstanding `setTimeout` callbacks as a list of (email, absolute
deadline) pairs, and the credential service as an oracle parameter
`check : String → String → Except ε (Option α)` (`Except.error` = the awaited
call threw; `Except.ok none` = falsy result; `Except.ok (some u)` = truthy
result `u`).  Each JS assignment `failedLoginAttempts[x] = v` is recorded in
the `writes` field of the step result, and each `setTimeout` registration in
`scheduled`, so that side-effect counting claims can be stated.
-/

namespace AuthCtrl

/-- `loginAttemptResetTime` from the source: 30 minutes in milliseconds. -/
def loginAttemptResetTime : Nat := 30 * 60 * 1000

/-- The controller's mutable state: the `failedLoginAttempts` object
(absent key = 0) and the pending `setTimeout` reset callbacks, each with the
email it closes over and its absolute fire deadline. -/
structure AuthState where
  failedLoginAttempts : String → Nat
  pendingResets : List (String × Nat)

/-- Fresh module state: `failedLoginAttempts = {}`, no timers. -/
def initState : AuthState := ⟨fun _ => 0, []⟩

/-- An error passed to `next(error)`: either an `errorResponder(type, message)`
object built by the controller, or an error thrown by the awaited
`checkLoginCredentials` call itself. -/
inductive AuthError (ε : Type) where
  | responder (errorType : String) (message : String)
  | serviceError (e : ε)
deriving DecidableEq

/-- What the handler does with the response: pass an error to the `next`
middleware, or answer with a status code and JSON body. -/
inductive LoginResponse (ε α : Type) where
  | nextError (e : AuthError ε)
  | okJson (status : Nat) (body : α)
deriving DecidableEq

/-- The FORBIDDEN error thrown on lockout. -/
def lockedOutError {ε : Type} : AuthError ε :=
  .responder "FORBIDDEN" "Too many failed login attempts. Try again later 30min."

/-- The INVALID_CREDENTIALS error thrown on a rejected credential check. -/
def invalidCredentialsError {ε : Type} : AuthError ε :=
  .responder "INVALID_CREDENTIALS" "Wrong email or password"

/-- Result of one `login` call: the response, the state after the call, the
list of assignments `failedLoginAttempts[x] = v` performed during the call,
and the list of `setTimeout` reset callbacks the call registered. -/
structure LoginStep (ε α : Type) where
  response : LoginResponse ε α
  state : AuthState
  writes : List (String × Nat)
  scheduled : List (String × Nat)

/-- The body of `login` after the lockout guard: await
`checkLoginCredentials`; on throw, pass the error on untouched; on falsy,
store `loginAttempts + 1` and fail with INVALID_CREDENTIALS; on truthy, store
0, register the 30-minute reset callback, and answer 200. -/
def checkAndRecord {ε α : Type} (check : String → String → Except ε (Option α))
    (now : Nat) (st : AuthState) (email password : String)
    (loginAttempts : Nat) : LoginStep ε α :=
  match check email password with
  | .error e => ⟨.nextError (.serviceError e), st, [], []⟩
  | .ok none =>
      ⟨.nextError invalidCredentialsError,
       { st with failedLoginAttempts :=
           fun e => if e = email then loginAttempts + 1 else st.failedLoginAttempts e },
       [(email, loginAttempts + 1)], []⟩
  | .ok (some user) =>
      ⟨.okJson 200 user,
       { failedLoginAttempts := fun e => if e = email then 0 else st.failedLoginAttempts e,
         pendingResets := st.pendingResets ++ [(email, now + loginAttemptResetTime)] },
       [(email, 0)], [(email, now + loginAttemptResetTime)]⟩

/-- The `login` handler: read the count (`|| 0`), short-circuit with
FORBIDDEN when `loginAttempts >= 5`, otherwise run the credential check and
record the outcome. -/
def login {ε α : Type} (check : String → String → Except ε (Option α))
    (now : Nat) (st : AuthState) (email password : String) : LoginStep ε α :=
  let loginAttempts := st.failedLoginAttempts email
  if 5 ≤ loginAttempts then
    ⟨.nextError lockedOutError, st, [], []⟩
  else
    checkAndRecord check now st email password loginAttempts

/-- A scheduled `setTimeout` callback firing: if a reset for `email` with the
given deadline is outstanding and due, it sets `failedLoginAttempts[email] = 0`
and is consumed; otherwise nothing happens (a callback that was never
registered never runs). -/
def fireReset (st : AuthState) (email : String) (deadline now : Nat) : AuthState :=
  if (email, deadline) ∈ st.pendingResets ∧ deadline ≤ now then
    { failedLoginAttempts := fun e => if e = email then 0 else st.failedLoginAttempts e,
      pendingResets := st.pendingResets.erase (email, deadline) }
  else st

/-- An event in a sequential execution: a `login` request or a timer firing. -/
inductive AuthEvent where
  | loginCall (email password : String) (now : Nat)
  | resetFires (email : String) (deadline now : Nat)

/-- One event applied to the state. -/
def step {ε α : Type} (check : String → String → Except ε (Option α))
    (st : AuthState) : AuthEvent → AuthState
  | .loginCall email password now => (login check now st email password).state
  | .resetFires email deadline now => fireReset st email deadline now

/-- A sequential execution: fold the events over the state. -/
def run {ε α : Type} (check : String → String → Except ε (Option α))
    (st : AuthState) (evs : List AuthEvent) : AuthState :=
  evs.foldl (step check) st

/-- All tracker mutations a single `login` call gives rise to: the writes it
performs immediately plus, for each reset callback it registers, the write of
0 that callback performs when it fires. -/
def causedMutations {ε α : Type} (s : LoginStep ε α) : List (String × Nat) :=
  s.writes ++ s.scheduled.map (fun t => (t.1, 0))

/-- Modelled from the spec: `checkLoginCredentials` of the authentication
service (`authentication-service.js` is not under `src/`).  Per §4.2–§4.3 of
the spec it resolves the credential record by identifier via Credential
Lookup and verifies the plaintext against the stored hash with the Password
Verifier; it reports failure identically when the identifier is unknown and
when the password mismatches, and reports the user's public data on success. -/
def checkLoginCredentials (store : List (String × String))
    (verify : String → String → Bool) (email password : String) : Option String :=
  match store.find? (fun r => r.1 == email) with
  | none => none
  | some r => if verify password r.2 then some r.1 else none

/-- Oracle that always rejects (unknown identifier or wrong password). -/
def chkReject : String → String → Except Unit (Option String) :=
  fun _ _ => .ok none

/-- Oracle that always accepts, returning the user record "user-a". -/
def chkAccept : String → String → Except Unit (Option String) :=
  fun _ _ => .ok (some "user-a")

/-- Oracle whose awaited call throws (e.g. storage unavailable). -/
def chkThrow : String → String → Except Unit (Option String) :=
  fun _ _ => .error ()

/-- A state in which "a@x.com" has reached the lockout threshold. -/
def lockedState : AuthState :=
  ⟨fun e => if e = "a@x.com" then 5 else 0, []⟩

/-- A state in which "a@x.com" has four failures, one short of lockout. -/
def nearLockState : AuthState :=
  ⟨fun e => if e = "a@x.com" then 4 else 0, []⟩

/-- Oracle for the lockout-clearing trace: the password "correct" succeeds,
anything else is rejected. -/
def c10check : String → String → Except Unit (Option String) :=
  fun _ password => if password = "correct" then .ok (some "user-a") else .ok none

/-- One successful login at time 0 (registers a reset callback for time
1800000) followed by five failed logins for the same email. -/
def successThenFiveFails : List AuthEvent :=
  [.loginCall "a@x.com" "correct" 0,
   .loginCall "a@x.com" "wrong" 1,
   .loginCall "a@x.com" "wrong" 2,
   .loginCall "a@x.com" "wrong" 3,
   .loginCall "a@x.com" "wrong" 4,
   .loginCall "a@x.com" "wrong" 5]

/-- The same trace, followed by the success-registered callback firing at its
deadline. -/
def successFailsThenTimer : List AuthEvent :=
  successThenFiveFails ++ [.resetFires "a@x.com" 1800000 1800000]

/-- Credential store for the enumeration-resistance witness: one record. -/
def demoStore : List (String × String) := [("b@x.com", "hashB")]

/-- Password verifier for the enumeration-resistance witness: accepts exactly
the plaintext "secret" against the hash "hashB". -/
def demoVerify : String → String → Bool :=
  fun plaintext hash => plaintext == "secret" && hash == "hashB"

/-- C1: when the stored failure count for the identifier is at least 5, the
login call answers with the FORBIDDEN lockout error and the unchanged state,
for every credential oracle alike (so `checkLoginCredentials` is never
consulted); when the count is strictly below 5, the call proceeds to the
credential check `checkAndRecord`. -/
theorem login_lockout_threshold {ε α : Type}
    (check : String → String → Except ε (Option α)) (now : Nat)
    (st : AuthState) (email password : String) :
    (5 ≤ st.failedLoginAttempts email →
      login check now st email password =
        ⟨.nextError lockedOutError, st, [], []⟩) ∧
    (st.failedLoginAttempts email < 5 →
      login check now st email password =
        checkAndRecord check now st email password (st.failedLoginAttempts email)) := by
  constructor
  · intro h
    simp [login, h]
  · intro h
    simp [login, Nat.not_le.mpr h]

/-- Closed instance of the C1 theorem, at the lockout threshold and below. -/
theorem login_lockout_threshold_witness :
    (5 ≤ lockedState.failedLoginAttempts "a@x.com" ∧
      login chkReject 0 lockedState "a@x.com" "pw" =
        ⟨.nextError lockedOutError, lockedState, [], []⟩) ∧
    (initState.failedLoginAttempts "a@x.com" < 5 ∧
      login chkReject 0 initState "a@x.com" "pw" =
        checkAndRecord chkReject 0 initState "a@x.com" "pw"
          (initState.failedLoginAttempts "a@x.com")) :=
  ⟨⟨by decide,
    (login_lockout_threshold chkReject 0 lockedState "a@x.com" "pw").1 (by decide)⟩,
   ⟨by decide,
    (login_lockout_threshold chkReject 0 initState "a@x.com" "pw").2 (by decide)⟩⟩

/-- C3: when the lockout does not fire and the credential check rejects, the
call answers with the INVALID_CREDENTIALS error and the stored count for the
identifier grows by exactly one. -/
theorem login_invalidCredentials_increments {ε α : Type}
    (check : String → String → Except ε (Option α)) (now : Nat)
    (st : AuthState) (email password : String)
    (hlt : st.failedLoginAttempts email < 5)
    (hrej : check email password = Except.ok (none : Option α)) :
    (login check now st email password).response = .nextError invalidCredentialsError ∧
    (login check now st email password).state.failedLoginAttempts email =
      st.failedLoginAttempts email + 1 := by
  simp [login, Nat.not_le.mpr hlt, checkAndRecord, hrej]

/-- Closed instance of the C3 theorem on a fresh identifier. -/
theorem login_invalidCredentials_increments_witness :
    initState.failedLoginAttempts "a@x.com" < 5 ∧
    chkReject "a@x.com" "pw" = Except.ok none ∧
    ((login chkReject 0 initState "a@x.com" "pw").response =
        .nextError invalidCredentialsError ∧
      (login chkReject 0 initState "a@x.com" "pw").state.failedLoginAttempts "a@x.com" =
        initState.failedLoginAttempts "a@x.com" + 1) :=
  ⟨by decide, rfl,
    login_invalidCredentials_increments chkReject 0 initState "a@x.com" "pw"
      (by decide) rfl⟩

/-- C4: when the identifier is not locked out and the credential check
succeeds, the call answers 200 with the authenticated user's data and the
stored count for the identifier becomes 0, whatever it was before. -/
theorem login_success_resets {ε α : Type}
    (check : String → String → Except ε (Option α)) (now : Nat)
    (st : AuthState) (email password : String) (user : α)
    (hlt : st.failedLoginAttempts email < 5)
    (hok : check email password = Except.ok (some user)) :
    (login check now st email password).response = .okJson 200 user ∧
    (login check now st email password).state.failedLoginAttempts email = 0 := by
  simp [login, Nat.not_le.mpr hlt, checkAndRecord, hok]

/-- Closed instance of the C4 theorem from a state with four failures. -/
theorem login_success_resets_witness :
    nearLockState.failedLoginAttempts "a@x.com" < 5 ∧
    chkAccept "a@x.com" "pw" = Except.ok (some "user-a") ∧
    ((login chkAccept 0 nearLockState "a@x.com" "pw").response =
        .okJson 200 "user-a" ∧
      (login chkAccept 0 nearLockState "a@x.com" "pw").state.failedLoginAttempts
        "a@x.com" = 0) :=
  ⟨by decide, rfl,
    login_success_resets chkAccept 0 nearLockState "a@x.com" "pw" "user-a"
      (by decide) rfl⟩

/-- C5: a call that answers with the lockout error leaves the whole state —
every count and every pending timer — exactly as it was. -/
theorem login_lockedOut_leaves_state {ε α : Type}
    (check : String → String → Except ε (Option α)) (now : Nat)
    (st : AuthState) (email password : String)
    (h : (login check now st email password).response = .nextError lockedOutError) :
    (login check now st email password).state = st := by
  by_cases hc : 5 ≤ st.failedLoginAttempts email
  · simp [login, hc]
  · exfalso
    cases hcheck : check email password with
    | error e =>
      simp [login, hc, checkAndRecord, hcheck, lockedOutError] at h
    | ok r =>
      cases r with
      | none =>
        simp [login, hc, checkAndRecord, hcheck, lockedOutError,
          invalidCredentialsError] at h
      | some u =>
        simp [login, hc, checkAndRecord, hcheck] at h

/-- Closed instance of the C5 theorem on a locked identifier. -/
theorem login_lockedOut_leaves_state_witness :
    (login chkReject 0 lockedState "a@x.com" "pw").response =
      .nextError lockedOutError ∧
    (login chkReject 0 lockedState "a@x.com" "pw").state = lockedState :=
  ⟨by decide,
    login_lockedOut_leaves_state chkReject 0 lockedState "a@x.com" "pw" (by decide)⟩

/-- C6: when the identifier is not locked out and the awaited credential
lookup throws, the error is passed on to the middleware and the state — in
particular the failure count — is untouched. -/
theorem login_lookupFailure_propagates {ε α : Type}
    (check : String → String → Except ε (Option α)) (now : Nat)
    (st : AuthState) (email password : String) (e : ε)
    (hlt : st.failedLoginAttempts email < 5)
    (herr : check email password = Except.error e) :
    (login check now st email password).response = .nextError (.serviceError e) ∧
    (login check now st email password).state = st := by
  simp [login, Nat.not_le.mpr hlt, checkAndRecord, herr]

/-- Closed instance of the C6 theorem with a throwing lookup. -/
theorem login_lookupFailure_propagates_witness :
    initState.failedLoginAttempts "a@x.com" < 5 ∧
    chkThrow "a@x.com" "pw" = Except.error () ∧
    ((login chkThrow 0 initState "a@x.com" "pw").response =
        .nextError (.serviceError ()) ∧
      (login chkThrow 0 initState "a@x.com" "pw").state = initState) :=
  ⟨by decide, rfl,
    login_lookupFailure_propagates chkThrow 0 initState "a@x.com" "pw" ()
      (by decide) rfl⟩

/-- C2 (code evaluated at the failing input): a failed login for a fresh
identifier leaves its count at 1 but registers no reset callback — the
`setTimeout` sits only on the success path — so no timer firing, at any
deadline or time, ever brings the count back to 0. The count from a failure
therefore never expires, contradicting the 30-minute reset the claim (and the
code's own lockout message) describes. -/
theorem failedLogin_registersNoReset :
    (login chkReject 0 initState "a@x.com" "pw").state.failedLoginAttempts "a@x.com" = 1 ∧
    (login chkReject 0 initState "a@x.com" "pw").scheduled = [] ∧
    (login chkReject 0 initState "a@x.com" "pw").state.pendingResets = [] ∧
    ∀ email deadline now,
      (fireReset (login chkReject 0 initState "a@x.com" "pw").state
          email deadline now).failedLoginAttempts "a@x.com" = 1 := by
  refine ⟨by decide, by decide, by decide, ?_⟩
  intro email deadline now
  have hpr : (login chkReject 0 initState "a@x.com" "pw").state.pendingResets = [] := by
    decide
  simp only [fireReset, hpr]
  simp only [List.not_mem_nil, false_and, if_false]
  decide

/-- C7: with the credential service modelled from the spec, a login for an
identifier with no credential record and a login for a known identifier with
a wrong password (neither locked out) get equal responses — both the single
INVALID_CREDENTIALS error — so the caller cannot tell the two apart. -/
theorem login_enumeration_indistinguishable
    (store : List (String × String)) (verify : String → String → Bool)
    (email₁ password₁ email₂ password₂ : String) (now₁ now₂ : Nat)
    (st₁ st₂ : AuthState) (cred : String × String)
    (h₁ : store.find? (fun r => r.1 == email₁) = none)
    (h₂ : store.find? (fun r => r.1 == email₂) = some cred)
    (h₃ : verify password₂ cred.2 = false)
    (hl₁ : st₁.failedLoginAttempts email₁ < 5)
    (hl₂ : st₂.failedLoginAttempts email₂ < 5) :
    (login (fun e p => Except.ok (checkLoginCredentials store verify e p) :
        String → String → Except Unit (Option String))
        now₁ st₁ email₁ password₁).response =
      (login (fun e p => Except.ok (checkLoginCredentials store verify e p))
        now₂ st₂ email₂ password₂).response ∧
    (login (fun e p => Except.ok (checkLoginCredentials store verify e p) :
        String → String → Except Unit (Option String))
        now₁ st₁ email₁ password₁).response = .nextError invalidCredentialsError := by
  have c₁ : checkLoginCredentials store verify email₁ password₁ = none := by
    simp [checkLoginCredentials, h₁]
  have c₂ : checkLoginCredentials store verify email₂ password₂ = none := by
    simp [checkLoginCredentials, h₂, h₃]
  constructor <;>
    simp [login, Nat.not_le.mpr hl₁, Nat.not_le.mpr hl₂, checkAndRecord, c₁, c₂]

/-- Closed instance of the C7 theorem: unknown "a@x.com" versus known
"b@x.com" with a wrong password. -/
theorem login_enumeration_indistinguishable_witness :
    demoStore.find? (fun r => r.1 == "a@x.com") = none ∧
    demoStore.find? (fun r => r.1 == "b@x.com") = some ("b@x.com", "hashB") ∧
    demoVerify "wrong" "hashB" = false ∧
    (login (fun e p => Except.ok (checkLoginCredentials demoStore demoVerify e p) :
        String → String → Except Unit (Option String))
        0 initState "a@x.com" "anything").response =
      (login (fun e p => Except.ok (checkLoginCredentials demoStore demoVerify e p))
        7 initState "b@x.com" "wrong").response :=
  ⟨by decide, by decide, by decide,
    (login_enumeration_indistinguishable demoStore demoVerify "a@x.com" "anything"
      "b@x.com" "wrong" 0 7 initState initState ("b@x.com", "hashB")
      (by decide) (by decide) (by decide) (by decide) (by decide)).1⟩

/-- C8 (counterexample): a successful login from the fresh state performs the
immediate reset write and registers a timer whose firing performs a second
write of 0, so the call causes two tracker mutations, not exactly one. -/
theorem login_success_causes_two_mutations :
    (causedMutations (login chkAccept 0 initState "a@x.com" "pw")).length = 2 ∧
    ¬ (causedMutations (login chkAccept 0 initState "a@x.com" "pw")).length = 1 := by
  decide

/-- C8 (amended): when the awaited credential call completes, a login call
short-circuited by lockout performs no immediate tracker write and registers
no timer; every other call performs exactly one immediate write, and exactly
the successful ones additionally register one deferred reset callback — one
more write of 0 when it fires. -/
theorem login_mutation_count {ε α : Type}
    (check : String → String → Except ε (Option α)) (now : Nat)
    (st : AuthState) (email password : String) (r : Option α)
    (hc : check email password = Except.ok r) :
    (login check now st email password).writes.length =
      (if 5 ≤ st.failedLoginAttempts email then 0 else 1) ∧
    (login check now st email password).scheduled.length =
      (if 5 ≤ st.failedLoginAttempts email then 0 else
        match r with
        | some _ => 1
        | none => 0) := by
  by_cases h : 5 ≤ st.failedLoginAttempts email
  · simp [login, h]
  · cases r with
    | none => simp [login, h, Nat.not_le.mpr (Nat.lt_of_not_le h), checkAndRecord, hc]
    | some u => simp [login, h, checkAndRecord, hc]

/-- Closed instance of the amended C8 theorem on a successful call. -/
theorem login_mutation_count_witness :
    chkAccept "a@x.com" "pw" = Except.ok (some "user-a") ∧
    ((login chkAccept 0 initState "a@x.com" "pw").writes.length =
        (if 5 ≤ initState.failedLoginAttempts "a@x.com" then 0 else 1) ∧
      (login chkAccept 0 initState "a@x.com" "pw").scheduled.length =
        (if 5 ≤ initState.failedLoginAttempts "a@x.com" then 0 else
          match (some "user-a" : Option String) with
          | some _ => 1
          | none => 0)) :=
  ⟨rfl, login_mutation_count chkAccept 0 initState "a@x.com" "pw" (some "user-a") rfl⟩

/-- One event keeps every stored count at or below 5: a login either
short-circuits (no change), propagates a lookup error (no change), increments
a count that the guard has just bounded by 4, or writes 0; a firing timer
writes 0 or does nothing. -/
theorem step_preserves_bound {ε α : Type}
    (check : String → String → Except ε (Option α)) (st : AuthState)
    (hb : ∀ e, st.failedLoginAttempts e ≤ 5) (ev : AuthEvent) :
    ∀ e, (step check st ev).failedLoginAttempts e ≤ 5 := by
  intro e
  cases ev with
  | loginCall email password now =>
    by_cases h : 5 ≤ st.failedLoginAttempts email
    · simpa [step, login, h] using hb e
    · cases hcheck : check email password with
      | error err => simpa [step, login, h, checkAndRecord, hcheck] using hb e
      | ok r =>
        cases r with
        | none =>
          by_cases he : e = email
          · subst he
            simp [step, login, h, checkAndRecord, hcheck]
            omega
          · simp [step, login, h, checkAndRecord, hcheck, he]
            exact hb e
        | some u =>
          simp only [step, login, if_neg h, checkAndRecord, hcheck]
          by_cases he : e = email
          · simp [he]
          · simpa [he] using hb e
  | resetFires email deadline now =>
    by_cases hg : (email, deadline) ∈ st.pendingResets ∧ deadline ≤ now
    · simp only [step, fireReset, if_pos hg]
      by_cases he : e = email
      · simp [he]
      · simpa [he] using hb e
    · simpa [step, fireReset, hg] using hb e

/-- A bounded state stays bounded along any event sequence. -/
theorem run_preserves_bound {ε α : Type}
    (check : String → String → Except ε (Option α)) (evs : List AuthEvent) :
    ∀ st : AuthState, (∀ e, st.failedLoginAttempts e ≤ 5) →
      ∀ e, (run check st evs).failedLoginAttempts e ≤ 5 := by
  induction evs with
  | nil => intro st hb e; exact hb e
  | cons ev evs ih =>
    intro st hb e
    exact ih (step check st ev) (step_preserves_bound check st hb ev) e

/-- C9: along every sequential execution of login calls and timer firings
from the fresh state, each stored failure count is a natural number (so never
negative) and never exceeds 5, the guard rejecting before the increment once
the threshold is reached. -/
theorem failedLoginAttempts_bounded {ε α : Type}
    (check : String → String → Except ε (Option α)) (evs : List AuthEvent)
    (email : String) :
    0 ≤ (run check initState evs).failedLoginAttempts email ∧
    (run check initState evs).failedLoginAttempts email ≤ 5 :=
  ⟨Nat.zero_le _, run_preserves_bound check evs initState (fun _ => Nat.zero_le 5) email⟩

/-- C10: the reset callback is registered only by a successful login (the
failed calls of the trace register none, the successful one registers one),
and once it fires it writes 0 unconditionally; hence after a success at time
0, five failures (count 5, locked), and the success-registered timer firing
at its 30-minute deadline, the identifier is back to count 0 and no longer
locked out, though no success followed the failures. -/
theorem success_timer_clears_lockout :
    (login c10check 0 initState "a@x.com" "correct").scheduled =
      [("a@x.com", 1800000)] ∧
    (login c10check 1 initState "a@x.com" "wrong").scheduled = [] ∧
    (run c10check initState successThenFiveFails).failedLoginAttempts "a@x.com" = 5 ∧
    5 ≤ (run c10check initState successThenFiveFails).failedLoginAttempts "a@x.com" ∧
    (run c10check initState successThenFiveFails).pendingResets =
      [("a@x.com", 1800000)] ∧
    (run c10check initState successFailsThenTimer).failedLoginAttempts "a@x.com" = 0 ∧
    ¬ 5 ≤ (run c10check initState successFailsThenTimer).failedLoginAttempts "a@x.com" := by
  decide

end AuthCtrl
